import Mathlib

/-!
Verification development for the ai-scraper service
(src/services/ai-scraper/scraper.py and config.py).

The Python code is shallowly embedded: Python values flowing through the
extraction pipeline become the inductive type `PyVal`; code that may raise
becomes functions over `Except String` oracles; the `async` scheduling is
irrelevant to the final values (every task writes only its own slot), so
batch execution is modelled by an index-preserving map.  Every raise site
of the Python functions under study sits inside a `try` whose handler
returns a record, so the embedded functions are total — that totality is
the "never raises" half of the error-handling contract, and the theorems
below pin down which record each handler produces.
-/

/-! ## Python values

A `PyVal` models the Python objects handled by the scraper: `None`, lists,
dicts, and scalar leaves (strings, numbers, booleans).  Lists and dict
field-lists are given their own mutual inductives so that all recursion in
this file is plain structural recursion. -/

mutual

inductive PyVal : Type where
  | null : PyVal
  | bool : Bool → PyVal
  | int : Int → PyVal
  | str : String → PyVal
  | list : PyList → PyVal
  | dict : PyFields → PyVal

inductive PyList : Type where
  | nil : PyList
  | cons : PyVal → PyList → PyList

inductive PyFields : Type where
  | nil : PyFields
  | cons : String → PyVal → PyFields → PyFields

end

/-- Python truthiness (`if value:`) for the values modelled by `PyVal`:
`None`, empty containers, the empty string, `0` and `False` are falsy. -/
def py_truthy : PyVal → Bool
  | .null => false
  | .bool b => b
  | .int n => !(n == 0)
  | .str s => !(s == "")
  | .list .nil => false
  | .list (.cons _ _) => true
  | .dict .nil => false
  | .dict (.cons _ _ _) => true

/-! ## The emptiness test

`_is_empty_result` (scraper.py lines 279-302): a value is empty when it is
`None`, an empty list, a single-element list whose element is empty, or a
dict for which the inner helper `all_none` holds: every dict value is
`None`, or an empty list, or recursively an all-none dict; any other value
(including any scalar) makes the dict non-empty.  Scalars themselves are
never empty. -/

mutual

def is_empty_result : PyVal → Bool
  | .null => true
  | .list .nil => true
  | .list (.cons x .nil) => is_empty_result x
  | .list (.cons _ (.cons _ _)) => false
  | .dict fs => all_none fs
  | .bool _ => false
  | .int _ => false
  | .str _ => false

def all_none : PyFields → Bool
  | .nil => true
  | .cons _ v tl => all_none_val v && all_none tl

def all_none_val : PyVal → Bool
  | .dict fs => all_none fs
  | .list .nil => true
  | .list (.cons _ _) => false
  | .null => true
  | .bool _ => false
  | .int _ => false
  | .str _ => false

end

/-! Spec-side rendering of the emptiness test, written from the words of
the specification (section 4.2): "a record is empty if it is null; or an
empty list; or a single-element list whose sole element is itself empty;
or a mapping whose every leaf value is null and every nested list is empty
and every nested mapping is (recursively) empty."  It is compared with the
code-derived `is_empty_result` in the claim theorem. -/

mutual

inductive SpecEmpty : PyVal → Prop where
  | null : SpecEmpty .null
  | list_nil : SpecEmpty (.list .nil)
  | list_single {x : PyVal} : SpecEmpty x → SpecEmpty (.list (.cons x .nil))
  | dict {fs : PyFields} : SpecLeavesEmpty fs → SpecEmpty (.dict fs)

inductive SpecLeavesEmpty : PyFields → Prop where
  | nil : SpecLeavesEmpty .nil
  | cons {k : String} {v : PyVal} {tl : PyFields} :
      SpecLeafEmpty v → SpecLeavesEmpty tl → SpecLeavesEmpty (.cons k v tl)

inductive SpecLeafEmpty : PyVal → Prop where
  | null : SpecLeafEmpty .null
  | list_nil : SpecLeafEmpty (.list .nil)
  | dict {fs : PyFields} : SpecLeavesEmpty fs → SpecLeafEmpty (.dict fs)

end

/-! ## Configuration (config.py)

The per-data-type profiles.  Delays are exact values (5.0, 6.0 seconds) and
the retry multiplier is 1.5; all this arithmetic is exact, so delays are
modelled as rationals.  The `js_code` strings are JavaScript blobs whose
content the scraper never inspects (they are passed opaquely to the browser
engine), so they are modelled by tags distinguishing the two scripts
appearing in config.py. -/

inductive JsCode : Type where
  | default_js_scroll : JsCode
  | h2h_tab_click : JsCode
deriving DecidableEq

/-- DataTypeConfig from config.py: wait_for selector, delay before capture,
page timeout (ms), optional pre-capture script. -/
structure DataTypeConfig : Type where
  wait_for : Option String
  delay : ℚ
  timeout : Nat
  js_code : Option JsCode := none
deriving DecidableEq

def DEFAULT_DELAY : ℚ := 5
def DEFAULT_TIMEOUT : Nat := 45000

/-- DATA_TYPE_CONFIGS dict from config.py (lines 40-170). -/
def DATA_TYPE_CONFIGS : String → Option DataTypeConfig
  | "xStats" => some ⟨none, DEFAULT_DELAY, DEFAULT_TIMEOUT, some .default_js_scroll⟩
  | "statistics" => some ⟨none, DEFAULT_DELAY, DEFAULT_TIMEOUT, some .default_js_scroll⟩
  | "headToHead" => some ⟨none, 6, DEFAULT_TIMEOUT, some .h2h_tab_click⟩
  | "news" => some ⟨none, DEFAULT_DELAY, DEFAULT_TIMEOUT, some .default_js_scroll⟩
  | "matchInfo" => some ⟨none, DEFAULT_DELAY, DEFAULT_TIMEOUT, some .default_js_scroll⟩
  | "table" => some ⟨none, 6, DEFAULT_TIMEOUT, some .default_js_scroll⟩
  | "lineup" => some ⟨none, 6, DEFAULT_TIMEOUT, some .default_js_scroll⟩
  | "analysis" => some ⟨none, DEFAULT_DELAY, DEFAULT_TIMEOUT, some .default_js_scroll⟩
  | "oddset" => some ⟨none, DEFAULT_DELAY, DEFAULT_TIMEOUT, some .default_js_scroll⟩
  | _ => none

/-- get_config (config.py lines 173-187): profile lookup with a default for
unknown data types. -/
def get_config (data_type : String) : DataTypeConfig :=
  (DATA_TYPE_CONFIGS data_type).getD ⟨none, DEFAULT_DELAY, DEFAULT_TIMEOUT, none⟩

/-- get_retry_config (config.py lines 190-207): same profile with the delay
multiplied (default multiplier 1.5). -/
def get_retry_config (data_type : String) (multiplier : ℚ := 3 / 2) : DataTypeConfig :=
  let cfg := get_config data_type
  ⟨cfg.wait_for, cfg.delay * multiplier, cfg.timeout, cfg.js_code⟩

/-- CrawlerRunConfig as built by `_build_crawler_config` and
`_build_retry_config` (scraper.py lines 244-277); only the fields that vary
between those two constructions are modelled (cache_mode, magic,
excluded_tags, screenshot and pdf are fixed identically in both). -/
structure CrawlerRunConfig : Type where
  delay_before_return_html : ℚ
  wait_for : Option String
  page_timeout : Nat
  js_code : Option JsCode
deriving DecidableEq

/-- _build_crawler_config (scraper.py lines 244-261). -/
def build_crawler_config (data_type : String) : CrawlerRunConfig :=
  let cfg := get_config data_type
  ⟨cfg.delay, cfg.wait_for, cfg.timeout, cfg.js_code⟩

/-- _build_retry_config (scraper.py lines 263-277). -/
def build_retry_config (data_type : String) : CrawlerRunConfig :=
  let cfg := get_retry_config data_type
  ⟨cfg.delay, cfg.wait_for, cfg.timeout, cfg.js_code⟩

/-! ## Browser-error classification (scraper.py lines 21-37) -/

def BROWSER_ERROR_PATTERNS : List String :=
  ["target page",
   "context or browser has been closed",
   "browser has been closed",
   "target closed",
   "page closed",
   "connection closed",
   "browser disconnected",
   "browser.new_context"]

/-- Python `pattern in s` substring containment, on character lists. -/
def contains_chars (pat : List Char) : List Char → Bool
  | [] => pat.isEmpty
  | c :: cs => pat.isPrefixOf (c :: cs) || contains_chars pat cs

/-- Python `pat in s` on strings. -/
def str_contains (s pat : String) : Bool :=
  contains_chars pat.data s.data

/-- is_browser_error (scraper.py lines 34-37): the exception text is
lowercased (`str(error).lower()`, applied characterwise here) and matched
for containment against each fixed pattern (the patterns are already
lowercase). -/
def is_browser_error (err : String) : Bool :=
  BROWSER_ERROR_PATTERNS.any
    (fun pattern => contains_chars pattern.data (err.data.map Char.toLower))

/-! ## The scrape orchestrator (_execute_scrape, scraper.py lines 999-1123)

Every effectful step inside the `try` body is driven by an oracle.  One
attempt consumes one `AttemptSpec`:

* `arun` is the combined outcome of crawler acquisition plus
  `crawler.arun(url, config, extraction_strategy)`: either an exception
  (carrying its message, `str(e)`) or a fetch result.  An exception raised
  while constructing the browser inside `_acquire_crawler` lands in the
  same `except` handler as one raised by `arun`, so one `Except` covers
  both.
* `manual` is the outcome of the fallback `strategy.run(url, sections)`
  call; its exceptions are caught and swallowed by the inner
  `try/except` (lines 1050-1059).

The first attempt of a call reads `env idx`; the single possible retry
reads `env (idx + 1)`. -/

/-- Fields of the crawl result that `_execute_scrape` reads.  `extracted`
is `extracted_content` with Python `None` rendered as `PyVal.null`;
`markdown` is `None` or a string; `error_message` is read only on
failure. -/
structure FetchResult : Type where
  success : Bool
  markdown : Option String
  extracted : PyVal
  error_message : Option String
  tokens : Option Nat

structure AttemptSpec : Type where
  arun : Except String FetchResult
  manual : Except String PyVal

/-- ScrapeResult record returned by `_execute_scrape` ({success, data,
tokens, error}). -/
structure ScrapeResult : Type where
  success : Bool
  data : PyVal
  tokens : Option Nat
  error : Option String

/-- Result record of the generic exception handler (lines 1118-1123). -/
def generic_scrape_failure : ScrapeResult :=
  ⟨false, .null, none, some "Scraping failed. Check server logs for details."⟩

/-- Observable actions of one `_execute_scrape` call tree: attempts (the
`crawler.arun` call with the config used, tagged with the oracle index of
the attempt) and browser resets. -/
inductive ScrapeEvent : Type where
  | attempt : Nat → CrawlerRunConfig → ScrapeEvent
  | reset : Bool → ScrapeEvent
deriving DecidableEq

/-- Python truthiness of the `markdown` attribute:
`hasattr(result, 'markdown') and result.markdown`. -/
def markdown_truthy : Option String → Bool
  | none => false
  | some s => !(s == "")

/-- Manual-extraction fallback (lines 1047-1059): when the crawl succeeded
but `extracted_content is None` and markdown is non-empty, run
`strategy.run` once; a falsy result or an exception (logged, swallowed)
leaves `extracted_content` as `None`. -/
def effective_extracted (manual : Except String PyVal) (fr : FetchResult) : PyVal :=
  match fr.extracted with
  | .null =>
    if fr.success && markdown_truthy fr.markdown then
      match manual with
      | .error _ => .null
      | .ok m => if py_truthy m then m else .null
    else
      .null
  | v => v

/-- Result post-processing (lines 1065-1070): a single-element list is
unwrapped to its sole element; a list of two or more elements is wrapped
as a dict under the key "results"; everything else passes through. -/
def final_data_of : PyVal → PyVal
  | .list (.cons x .nil) => x
  | .list (.cons a (.cons b tl)) => .dict (.cons "results" (.list (.cons a (.cons b tl))) .nil)
  | v => v

/-- _execute_scrape (scraper.py lines 999-1123).  Returns the result record
together with the chronological list of observable events.

Faithfulness notes:
* The recursion terminates because both recursive call sites pass
  `is_retry = true` and are guarded by `is_retry = false`.
* On a browser-fatal first-attempt exception the code calls
  `self._reset_crawler(force_wait=True)` (the `reset true` event) and
  re-runs itself with `is_retry=True` inside a nested `try`; that nested
  `except` branch (lines 1109-1116) is unreachable in this model because
  `_execute_scrape` itself never raises — its whole body sits inside the
  outer `try`, and `_reset_crawler` never raises either.
* The empty-result retry (lines 1072-1076) re-runs with the config built
  by `_build_retry_config(data_type)`. -/
def execute_scrape (env : Nat → AttemptSpec) (cfg : CrawlerRunConfig)
    (data_type : String) (is_retry : Bool) (idx : Nat) :
    ScrapeResult × List ScrapeEvent :=
  match (env idx).arun with
  | .error e =>
    if h : is_browser_error e = true ∧ is_retry = false then
      let rest := execute_scrape env cfg data_type true (idx + 1)
      (rest.1, ScrapeEvent.attempt idx cfg :: ScrapeEvent.reset true :: rest.2)
    else
      (generic_scrape_failure, [ScrapeEvent.attempt idx cfg])
  | .ok fr =>
    let fd := final_data_of (effective_extracted (env idx).manual fr)
    if h : fr.success = true ∧ is_empty_result fd = true ∧ is_retry = false then
      let rest := execute_scrape env (build_retry_config data_type) data_type true (idx + 1)
      (rest.1, ScrapeEvent.attempt idx cfg :: rest.2)
    else if fr.success then
      (⟨true, fd, fr.tokens, none⟩, [ScrapeEvent.attempt idx cfg])
    else
      (⟨false, .null, none, fr.error_message⟩, [ScrapeEvent.attempt idx cfg])
termination_by (if is_retry then 0 else 1)
decreasing_by
  · simp [h.2]
  · simp [h.2.2]

/-- Shorthand for the value that reaches the empty-result test and the
returned `data` field of a successful attempt. -/
def attempt_data (env : Nat → AttemptSpec) (idx : Nat) (fr : FetchResult) : PyVal :=
  final_data_of (effective_extracted (env idx).manual fr)

/-! ## Batch scheduling (scrape_batch, scraper.py lines 893-973)

`scrape_batch` pre-sizes `results = [None] * len(requests)`, launches one
`scrape_single(i, req)` task per item under an `asyncio.Semaphore`, and
each task writes only `results[i]`.  The semaphore and the cooperative
scheduler affect only the completion order, never which value a slot
receives, so the final array is modelled as the index-preserving map of
`scrape_single` over the enumerated requests.  Oracles:

* `warmup` is the outcome of the initial `await self._get_crawler()`; an
  exception there (or from `asyncio.gather` itself) hits the batch-level
  `except` (lines 964-973).
* `oracle i` is the outcome of `self._scrape_by_type(url, data_type)` for
  item `i`: an exception, or a `ScrapeResult` record. -/

/-- Batch request item.  `req.get("url", "")` / `req.get("data_type", "")`
render a missing key as the empty string, so a missing field and an empty
field coincide in this model. -/
structure BatchRequest : Type where
  url : String
  data_type : String

/-- Per-item batch result record: the `_scrape_by_type` result dict with
`url` and `data_type` keys added (a dict that never had a `tokens` key is
modelled with `tokens = none`). -/
structure BatchItemResult : Type where
  success : Bool
  data : PyVal
  tokens : Option Nat
  error : Option String
  url : String
  data_type : String

/-- Failure record for an item with a missing url or data_type (lines
930-938). -/
def missing_field_failure (req : BatchRequest) : BatchItemResult :=
  ⟨false, .null, none, some "Missing url or data_type", req.url, req.data_type⟩

/-- Failure record produced by the per-item exception handler (lines
946-954). -/
def item_exception_failure (req : BatchRequest) : BatchItemResult :=
  ⟨false, .null, none, some "Scraping failed. Check server logs for details.",
   req.url, req.data_type⟩

/-- Failure record produced by the batch-level exception handler (lines
964-973). -/
def batch_exception_failure (req : BatchRequest) : BatchItemResult :=
  ⟨false, .null, none, some "Batch scraping failed. Check server logs for details.",
   req.url, req.data_type⟩

/-- scrape_single (scraper.py lines 925-954).  The second component
records whether `_scrape_by_type` was invoked for this item; when it is
`false` the item caused no crawler acquisition, no navigation and no
extraction. -/
def scrape_single (oracle : Nat → Except String ScrapeResult) (idx : Nat)
    (req : BatchRequest) : BatchItemResult × Bool :=
  if req.url = "" || req.data_type = "" then
    (missing_field_failure req, false)
  else
    match oracle idx with
    | .ok r => (⟨r.success, r.data, r.tokens, r.error, req.url, req.data_type⟩, true)
    | .error _ => (item_exception_failure req, true)

/-- scrape_batch (scraper.py lines 893-973).  `max_concurrent` sizes the
semaphore; it bounds how many items run at once but does not influence the
value written to any slot, so it is unused here. -/
def scrape_batch (oracle : Nat → Except String ScrapeResult)
    (warmup : Except String Unit) (requests : List BatchRequest)
    (max_concurrent : Nat := 3) : List BatchItemResult :=
  if requests.isEmpty then []
  else
    match warmup with
    | .error _ => requests.map batch_exception_failure
    | .ok _ => requests.enum.map (fun p => (scrape_single oracle p.1 p.2).1)

/-! ## Browser lifecycle (scraper.py lines 140-234)

Time in the `force_wait` poll loop is modelled in ticks of the 0.1-second
poll interval: `counts k` is the value of `self._active_scrapes` observed
at the k-th poll, and the 30-second timeout (`elapsed > max_wait`) first
holds at tick 301.  The mutexes serialize the reads; each lock-protected
read is one call of `counts`. -/

/-- _close_crawler_unsafe with the trailing source word dropped from the
Lean name (scraper.py lines 140-156): close the handle if present; an
exception from `close()` is logged and swallowed, and the `finally` clears
the handle in every case. -/
def close_crawler (crawler : Option Unit) (close_outcome : Except String Unit) :
    Option Unit :=
  match crawler with
  | none => none
  | some _ =>
    match close_outcome with
    | .ok _ => none
    | .error _ => none

/-- Poll loop of `_reset_crawler(force_wait=True)` (lines 169-180): at tick
`k` read the counter; stop when it is 0; otherwise stop when the elapsed
time `k` tenths exceeds 300 tenths (= 30 seconds), which first happens at
tick 301; otherwise sleep one tick and repeat.  Returns the exit tick. -/
def wait_loop (counts : Nat → Nat) (k : Nat) : Nat :=
  if counts k = 0 then k
  else if 300 < k then k
  else wait_loop counts (k + 1)
termination_by 301 - k
decreasing_by omega

/-- _reset_crawler (scraper.py lines 158-190).  Returns the handle state
after the call and the number of poll ticks spent waiting.  With
`force_wait` the loop runs and the handle is then closed regardless of how
the loop exited; without it the reset is skipped entirely whenever the
instantaneous counter read is positive. -/
def reset_crawler (force_wait : Bool) (counts : Nat → Nat)
    (crawler : Option Unit) (close_outcome : Except String Unit) :
    Option Unit × Nat :=
  if force_wait then
    let k := wait_loop counts 0
    (close_crawler crawler close_outcome, k)
  else
    if 0 < counts 0 then (crawler, 0)
    else (close_crawler crawler close_outcome, 0)

/-! ## Reference counting (_acquire_crawler, scraper.py lines 217-234) -/

/-- Observable outcome of one `_acquire_crawler` block around a body:
the counter value while the body ran (`none` when `_get_crawler` raised
before the yield), the counter value after the `finally`, and the
propagated outcome. -/
structure AcquireRun (α : Type) : Type where
  count_at_yield : Option Int
  final_count : Int
  outcome : Except String α

/-- _acquire_crawler wrapped around a scrape body.  The counter is
incremented under its lock before anything else; `_get_crawler` may raise
(construction failures propagate), the body may raise, and the `finally`
decrements on every exit path. -/
def acquire_crawler (count : Int) (get_outcome : Except String Unit)
    (body : Except String α) : AcquireRun α :=
  let incremented := count + 1
  match get_outcome with
  | .error e => ⟨none, incremented - 1, .error e⟩
  | .ok _ =>
    match body with
    | .ok a => ⟨some incremented, incremented - 1, .ok a⟩
    | .error e => ⟨some incremented, incremented - 1, .error e⟩

/-- Counter events: `enter` is the increment at the top of
`_acquire_crawler`, `exit` the decrement in its `finally`. -/
inductive OpEvent : Type where
  | enter : OpEvent
  | exit : OpEvent

/-- Counter value after a sequence of events. -/
def count_after (c : Int) : List OpEvent → Int
  | [] => c
  | .enter :: es => count_after (c + 1) es
  | .exit :: es => count_after (c - 1) es

/-- Event sequences the reference-counting discipline can produce:
`AcquireGen k es` says `es` is observable with `k` acquisitions currently
in flight.  An `exit` can occur only for an acquisition that entered and
has not yet exited — exactly what the increment-then-`finally`-decrement
structure of `_acquire_crawler` enforces. -/
inductive AcquireGen : Nat → List OpEvent → Prop where
  | nil : AcquireGen 0 []
  | enter {k : Nat} {es : List OpEvent} :
      AcquireGen k es → AcquireGen (k + 1) (es ++ [.enter])
  | exit {k : Nat} {es : List OpEvent} :
      AcquireGen (k + 1) es → AcquireGen k (es ++ [.exit])

/-! ## Concrete environments used by witnesses and the counterexample -/

/-- Successful fetch whose extraction already carries data. -/
def fr_ok_int : FetchResult := ⟨true, some "md", .int 7, none, some 5⟩

/-- Successful fetch with no extracted content and no markdown: its
effective data is `None`, which the emptiness test flags. -/
def fr_empty_first : FetchResult := ⟨true, none, .null, none, none⟩

/-- Successful second-attempt fetch carrying data and token usage. -/
def fr_ok_second : FetchResult := ⟨true, none, .int 3, none, some 9⟩

def env_ok_int : Nat → AttemptSpec := fun _ => ⟨.ok fr_ok_int, .ok .null⟩

/-- First attempt empty, retry succeeds. -/
def env_empty_then_ok : Nat → AttemptSpec := fun i =>
  if i = 0 then ⟨.ok fr_empty_first, .ok .null⟩ else ⟨.ok fr_ok_second, .ok .null⟩

/-- First attempt raises a browser-fatal error, retry succeeds. -/
def env_browser_then_ok : Nat → AttemptSpec := fun i =>
  if i = 0 then ⟨.error "Target closed", .ok .null⟩ else ⟨.ok fr_ok_second, .ok .null⟩

/-- First attempt empty, and the empty-result retry then raises a
browser-fatal error. -/
def env_empty_then_browser_fatal : Nat → AttemptSpec := fun i =>
  if i = 0 then ⟨.ok fr_empty_first, .ok .null⟩
  else ⟨.error "browser has been closed", .ok .null⟩

/-- Two-request batch whose second item has an empty url. -/
def reqs_pair : List BatchRequest :=
  [⟨"https://spela.svenskaspel.se/stryktipset", "xStats"⟩, ⟨"", "news"⟩]

/-- Item oracle that always raises. -/
def oracle_fail : Nat → Except String ScrapeResult := fun _ => .error "boom"

/-! # Theorems -/

/-! ## The emptiness test agrees with its specification -/

mutual

theorem is_empty_result_iff (x : PyVal) : is_empty_result x = true ↔ SpecEmpty x := by
  cases x with
  | null => simp [is_empty_result]; exact .null
  | bool b =>
    simp only [is_empty_result, Bool.false_eq_true, false_iff]
    intro h; cases h
  | int n =>
    simp only [is_empty_result, Bool.false_eq_true, false_iff]
    intro h; cases h
  | str s =>
    simp only [is_empty_result, Bool.false_eq_true, false_iff]
    intro h; cases h
  | list xs =>
    cases xs with
    | nil => simp [is_empty_result]; exact .list_nil
    | cons hd tl =>
      cases tl with
      | nil =>
        simp only [is_empty_result]
        constructor
        · intro h; exact .list_single ((is_empty_result_iff hd).mp h)
        · intro h
          cases h with
          | list_single h0 => exact (is_empty_result_iff hd).mpr h0
      | cons hd2 tl2 =>
        simp only [is_empty_result, Bool.false_eq_true, false_iff]
        intro h; cases h
  | dict fs =>
    simp only [is_empty_result]
    constructor
    · intro h; exact .dict ((all_none_iff fs).mp h)
    · intro h
      cases h with
      | dict h0 => exact (all_none_iff fs).mpr h0

theorem all_none_iff (fs : PyFields) : all_none fs = true ↔ SpecLeavesEmpty fs := by
  cases fs with
  | nil => simp [all_none]; exact .nil
  | cons k v tl =>
    simp only [all_none, Bool.and_eq_true]
    constructor
    · intro h
      exact .cons ((all_none_val_iff v).mp h.1) ((all_none_iff tl).mp h.2)
    · intro h
      cases h with
      | cons h1 h2 =>
        exact ⟨(all_none_val_iff v).mpr h1, (all_none_iff tl).mpr h2⟩

theorem all_none_val_iff (v : PyVal) : all_none_val v = true ↔ SpecLeafEmpty v := by
  cases v with
  | null => simp [all_none_val]; exact .null
  | bool b =>
    simp only [all_none_val, Bool.false_eq_true, false_iff]
    intro h; cases h
  | int n =>
    simp only [all_none_val, Bool.false_eq_true, false_iff]
    intro h; cases h
  | str s =>
    simp only [all_none_val, Bool.false_eq_true, false_iff]
    intro h; cases h
  | list xs =>
    cases xs with
    | nil => simp [all_none_val]; exact .list_nil
    | cons hd tl =>
      simp only [all_none_val, Bool.false_eq_true, false_iff]
      intro h; cases h
  | dict fs =>
    simp only [all_none_val]
    constructor
    · intro h; exact .dict ((all_none_iff fs).mp h)
    · intro h
      cases h with
      | dict h0 => exact (all_none_iff fs).mpr h0

end

example : is_browser_error "Playwright: Target closed" = true := by decide
example : is_browser_error "timeout waiting for selector" = false := by decide

/-! ## Unfolding lemmas for execute_scrape -/

theorem execute_scrape_retry_raise {env : Nat → AttemptSpec} {idx : Nat} {e : String}
    (cfg : CrawlerRunConfig) (dt : String) (h : (env idx).arun = .error e) :
    execute_scrape env cfg dt true idx
      = (generic_scrape_failure, [ScrapeEvent.attempt idx cfg]) := by
  rw [execute_scrape, h]
  simp

theorem execute_scrape_retry_ok {env : Nat → AttemptSpec} {idx : Nat} {fr : FetchResult}
    (cfg : CrawlerRunConfig) (dt : String) (h : (env idx).arun = .ok fr) :
    execute_scrape env cfg dt true idx
      = if fr.success = true then
          (⟨true, attempt_data env idx fr, fr.tokens, none⟩, [ScrapeEvent.attempt idx cfg])
        else
          (⟨false, .null, none, fr.error_message⟩, [ScrapeEvent.attempt idx cfg]) := by
  rw [execute_scrape, h]
  simp [attempt_data]

/-- Second attempts never recurse: whatever the oracle does, an
`is_retry = true` run performs exactly one attempt with the given config
and no reset. -/
theorem execute_scrape_retry_trace (env : Nat → AttemptSpec) (cfg : CrawlerRunConfig)
    (dt : String) (idx : Nat) :
    (execute_scrape env cfg dt true idx).2 = [ScrapeEvent.attempt idx cfg] := by
  cases h : (env idx).arun with
  | error e => rw [execute_scrape_retry_raise cfg dt h]
  | ok fr =>
    rw [execute_scrape_retry_ok cfg dt h]
    by_cases hs : fr.success = true <;> simp [hs]

theorem execute_scrape_first_raise_browser {env : Nat → AttemptSpec} {idx : Nat}
    {e : String} (cfg : CrawlerRunConfig) (dt : String)
    (h : (env idx).arun = .error e) (hb : is_browser_error e = true) :
    execute_scrape env cfg dt false idx
      = ((execute_scrape env cfg dt true (idx + 1)).1,
         ScrapeEvent.attempt idx cfg :: ScrapeEvent.reset true ::
           (execute_scrape env cfg dt true (idx + 1)).2) := by
  rw [execute_scrape, h]
  simp [hb]

theorem execute_scrape_first_raise_other {env : Nat → AttemptSpec} {idx : Nat}
    {e : String} (cfg : CrawlerRunConfig) (dt : String)
    (h : (env idx).arun = .error e) (hb : is_browser_error e = false) :
    execute_scrape env cfg dt false idx
      = (generic_scrape_failure, [ScrapeEvent.attempt idx cfg]) := by
  rw [execute_scrape, h]
  simp [hb]

theorem execute_scrape_first_ok_empty {env : Nat → AttemptSpec} {idx : Nat}
    {fr : FetchResult} (cfg : CrawlerRunConfig) (dt : String)
    (h : (env idx).arun = .ok fr) (hs : fr.success = true)
    (he : is_empty_result (attempt_data env idx fr) = true) :
    execute_scrape env cfg dt false idx
      = ((execute_scrape env (build_retry_config dt) dt true (idx + 1)).1,
         ScrapeEvent.attempt idx cfg ::
           (execute_scrape env (build_retry_config dt) dt true (idx + 1)).2) := by
  rw [execute_scrape, h]
  simp only [attempt_data] at he
  simp [hs, he]

theorem execute_scrape_first_ok_nonempty {env : Nat → AttemptSpec} {idx : Nat}
    {fr : FetchResult} (cfg : CrawlerRunConfig) (dt : String)
    (h : (env idx).arun = .ok fr)
    (he : is_empty_result (attempt_data env idx fr) = false) :
    execute_scrape env cfg dt false idx
      = if fr.success = true then
          (⟨true, attempt_data env idx fr, fr.tokens, none⟩, [ScrapeEvent.attempt idx cfg])
        else
          (⟨false, .null, none, fr.error_message⟩, [ScrapeEvent.attempt idx cfg]) := by
  rw [execute_scrape, h]
  simp only [attempt_data] at he
  simp [he, attempt_data]

/-- Failed fetches (success flag false) return the fetch layer's own error
message, in both first attempts and retries. -/
theorem execute_scrape_ok_fail {env : Nat → AttemptSpec} {idx : Nat}
    {fr : FetchResult} (cfg : CrawlerRunConfig) (dt : String) (ir : Bool)
    (h : (env idx).arun = .ok fr) (hs : fr.success = false) :
    execute_scrape env cfg dt ir idx
      = (⟨false, .null, none, fr.error_message⟩, [ScrapeEvent.attempt idx cfg]) := by
  rw [execute_scrape, h]
  simp [hs]

/-- Results of retry runs that report success carry no error message. -/
theorem execute_scrape_retry_success_no_error (env : Nat → AttemptSpec)
    (cfg : CrawlerRunConfig) (dt : String) (idx : Nat) :
    (execute_scrape env cfg dt true idx).1.success = true →
    (execute_scrape env cfg dt true idx).1.error = none := by
  cases h : (env idx).arun with
  | error e =>
    rw [execute_scrape_retry_raise cfg dt h]
    intro hs
    simp [generic_scrape_failure] at hs
  | ok fr =>
    rw [execute_scrape_retry_ok cfg dt h]
    by_cases hs : fr.success = true <;> simp [hs]

/-- Successful results carry no error message, in every mode. -/
theorem execute_scrape_success_no_error (env : Nat → AttemptSpec)
    (cfg : CrawlerRunConfig) (dt : String) (ir : Bool) (idx : Nat) :
    (execute_scrape env cfg dt ir idx).1.success = true →
    (execute_scrape env cfg dt ir idx).1.error = none := by
  cases ir with
  | true => exact execute_scrape_retry_success_no_error env cfg dt idx
  | false =>
    cases h : (env idx).arun with
    | error e =>
      by_cases hb : is_browser_error e = true
      · rw [execute_scrape_first_raise_browser cfg dt h hb]
        exact execute_scrape_retry_success_no_error env cfg dt (idx + 1)
      · rw [execute_scrape_first_raise_other cfg dt h (by simpa using hb)]
        intro hs
        simp [generic_scrape_failure] at hs
    | ok fr =>
      by_cases hs : fr.success = true
      · by_cases hemp : is_empty_result (attempt_data env idx fr) = true
        · rw [execute_scrape_first_ok_empty cfg dt h hs hemp]
          exact execute_scrape_retry_success_no_error env (build_retry_config dt) dt (idx + 1)
        · rw [execute_scrape_first_ok_nonempty cfg dt h (by simpa using hemp)]
          simp [hs]
      · rw [execute_scrape_ok_fail cfg dt false h (by simpa using hs)]
        intro hcon
        simp at hcon

/-- Both fields that name the request survive into the item's slot in every
branch of scrape_single. -/
theorem scrape_single_fields (oracle : Nat → Except String ScrapeResult) (idx : Nat)
    (req : BatchRequest) :
    ((scrape_single oracle idx req).1).url = req.url ∧
    ((scrape_single oracle idx req).1).data_type = req.data_type := by
  by_cases h : (req.url = "" || req.data_type = "") = true
  · simp [scrape_single, h, missing_field_failure]
  · cases ho : oracle idx with
    | ok r => simp [scrape_single, h, ho]
    | error e => simp [scrape_single, h, ho, item_exception_failure]

/-- Unfolding of scrape_batch when the warmup raises: every slot gets the
batch-level failure record (vacuously so for the empty batch). -/
theorem scrape_batch_warmup_fail (oracle : Nat → Except String ScrapeResult)
    (e : String) (requests : List BatchRequest) (mc : Nat) :
    scrape_batch oracle (.error e) requests mc
      = requests.map batch_exception_failure := by
  cases requests with
  | nil => rfl
  | cons r rs => rfl

/-- Unfolding of scrape_batch when the warmup succeeds: the slots are the
per-item results of scrape_single at their original indices. -/
theorem scrape_batch_warmup_ok (oracle : Nat → Except String ScrapeResult)
    (requests : List BatchRequest) (mc : Nat) (u : Unit) :
    scrape_batch oracle (.ok u) requests mc
      = requests.enum.map (fun p => (scrape_single oracle p.1 p.2).1) := by
  cases requests with
  | nil => rfl
  | cons r rs => rfl

/-! ## Poll-loop facts -/

theorem wait_loop_exit (counts : Nat → Nat) :
    ∀ n k, 301 ≤ k + n → k ≤ 301 →
      (counts (wait_loop counts k) = 0 ∨ wait_loop counts k = 301) ∧
      k ≤ wait_loop counts k ∧
      (∀ j, k ≤ j → j < wait_loop counts k → counts j ≠ 0) := by
  intro n
  induction n with
  | zero =>
    intro k h1 h2
    have hk : k = 301 := by omega
    subst hk
    rw [wait_loop]
    by_cases h0 : counts 301 = 0
    · rw [if_pos h0]
      exact ⟨Or.inl h0, le_refl _, fun j hj1 hj2 => absurd hj2 (by omega)⟩
    · rw [if_neg h0, if_pos (by omega : 300 < 301)]
      exact ⟨Or.inr rfl, le_refl _, fun j hj1 hj2 => absurd hj2 (by omega)⟩
  | succ n ih =>
    intro k h1 h2
    by_cases h0 : counts k = 0
    · rw [wait_loop, if_pos h0]
      exact ⟨Or.inl h0, le_refl _, fun j hj1 hj2 => absurd hj2 (by omega)⟩
    · by_cases h3 : 300 < k
      · have hk : k = 301 := by omega
        subst hk
        rw [wait_loop, if_neg h0, if_pos h3]
        exact ⟨Or.inr rfl, le_refl _, fun j hj1 hj2 => absurd hj2 (by omega)⟩
      · rw [wait_loop, if_neg h0, if_neg h3]
        obtain ⟨ha, hb, hc⟩ := ih (k + 1) (by omega) (by omega)
        refine ⟨ha, by omega, ?_⟩
        intro j hj1 hj2
        rcases Nat.eq_or_lt_of_le hj1 with hkj | hkj
        · rw [← hkj]; exact h0
        · exact hc j (by omega) hj2

/-- Closing never raises and always clears the handle, whether or not the
underlying close call failed. -/
theorem close_crawler_eq_none (crawler : Option Unit) (oc : Except String Unit) :
    close_crawler crawler oc = none := by
  cases crawler with
  | none => rfl
  | some u => cases oc <;> rfl

/-! ## Counter facts -/

theorem count_after_append :
    ∀ (es es2 : List OpEvent) (c : Int),
      count_after c (es ++ es2) = count_after (count_after c es) es2 := by
  intro es
  induction es with
  | nil => intro es2 c; rfl
  | cons e tl ih =>
    intro es2 c
    cases e <;> simp [count_after, ih]

/-! # Claim theorems -/

/-- C1: for every batch of N requests passed to scrape_batch, the returned
list has exactly N entries, and the result at each position carries the
same url and data_type as the request at that position, for every per-item
oracle (success or failure) and every warmup outcome; completion order has
no bearing because each task writes only its own pre-sized slot, which the
index-preserving map in `scrape_batch` captures. -/
theorem scrape_batch_preserves_length_and_pairing :
    ∀ (oracle : Nat → Except String ScrapeResult) (warmup : Except String Unit)
      (requests : List BatchRequest) (mc : Nat),
      (scrape_batch oracle warmup requests mc).length = requests.length ∧
      ∀ (i : Nat) (hi : i < requests.length)
        (hi2 : i < (scrape_batch oracle warmup requests mc).length),
        ((scrape_batch oracle warmup requests mc).get ⟨i, hi2⟩).url
            = (requests.get ⟨i, hi⟩).url ∧
        ((scrape_batch oracle warmup requests mc).get ⟨i, hi2⟩).data_type
            = (requests.get ⟨i, hi⟩).data_type := by
  intro oracle warmup requests mc
  cases warmup with
  | error e =>
    rw [scrape_batch_warmup_fail]
    refine ⟨by simp, ?_⟩
    intro i hi hi2
    simp only [List.get_eq_getElem, List.getElem_map]
    exact ⟨rfl, rfl⟩
  | ok u =>
    rw [scrape_batch_warmup_ok]
    refine ⟨by simp, ?_⟩
    intro i hi hi2
    simp only [List.get_eq_getElem, List.getElem_map, List.getElem_enum]
    exact scrape_single_fields oracle i requests[i]

/-- C2: the public scrape operations return result records instead of
raising.  The embedded `execute_scrape`, `scrape_single` and `scrape_batch`
are total functions into record types — every Python raise site sits under
a handler — and this theorem pins the converted records down: a successful
record carries no error; an unrecovered exception in `_execute_scrape`
(non-browser-fatal first attempt, any raising retry, or both attempts
raising) yields the generic {success: false, data: None, error: "Scraping
failed..."} record; a raising item inside a batch yields that item's
generic failure record; a batch-level exception yields a generic failure
record per request. -/
theorem public_scrape_operations_never_raise :
    (∀ (env : Nat → AttemptSpec) (cfg : CrawlerRunConfig) (dt : String)
       (ir : Bool) (idx : Nat),
        (execute_scrape env cfg dt ir idx).1.success = true →
        (execute_scrape env cfg dt ir idx).1.error = none) ∧
    (∀ (env : Nat → AttemptSpec) (cfg : CrawlerRunConfig) (dt : String)
       (idx : Nat) (e : String),
        (env idx).arun = .error e → is_browser_error e = false →
        (execute_scrape env cfg dt false idx).1 = generic_scrape_failure) ∧
    (∀ (env : Nat → AttemptSpec) (cfg : CrawlerRunConfig) (dt : String)
       (idx : Nat) (e : String),
        (env idx).arun = .error e →
        (execute_scrape env cfg dt true idx).1 = generic_scrape_failure) ∧
    (∀ (env : Nat → AttemptSpec) (cfg : CrawlerRunConfig) (dt : String)
       (idx : Nat) (e e2 : String),
        (env idx).arun = .error e → (env (idx + 1)).arun = .error e2 →
        (execute_scrape env cfg dt false idx).1 = generic_scrape_failure) ∧
    (∀ (oracle : Nat → Except String ScrapeResult) (idx : Nat)
       (req : BatchRequest) (e : String),
        oracle idx = .error e → req.url ≠ "" → req.data_type ≠ "" →
        (scrape_single oracle idx req).1 = item_exception_failure req) ∧
    (∀ (oracle : Nat → Except String ScrapeResult) (requests : List BatchRequest)
       (mc : Nat) (e : String),
        scrape_batch oracle (.error e) requests mc
          = requests.map batch_exception_failure) := by
  refine ⟨?_, ?_, ?_, ?_, ?_, ?_⟩
  · exact execute_scrape_success_no_error
  · intro env cfg dt idx e h hb
    rw [execute_scrape_first_raise_other cfg dt h hb]
  · intro env cfg dt idx e h
    rw [execute_scrape_retry_raise cfg dt h]
  · intro env cfg dt idx e e2 h h2
    by_cases hb : is_browser_error e = true
    · rw [execute_scrape_first_raise_browser cfg dt h hb]
      rw [execute_scrape_retry_raise cfg dt h2]
    · rw [execute_scrape_first_raise_other cfg dt h (by simpa using hb)]
  · intro oracle idx req e h hu hd
    simp [scrape_single, hu, hd, h]
  · intro oracle requests mc e
    exact scrape_batch_warmup_fail oracle e requests mc

/-- C3 (amended): the two retry policies do not compose.  A retry run
(`is_retry = true`) — in particular the single empty-result retry — that
fails with any exception, browser-fatal or not, does not trigger the
browser-reset path: the call returns the generic failure record after
exactly two attempts, with no reset event and no further retry, because the
same `is_retry` flag guards both policies. -/
theorem empty_retry_browser_fatal_not_recovered
    (env : Nat → AttemptSpec) (cfg : CrawlerRunConfig) (dt : String) (idx : Nat)
    (fr : FetchResult) (e2 : String)
    (h : (env idx).arun = .ok fr) (hs : fr.success = true)
    (he : is_empty_result (attempt_data env idx fr) = true)
    (h2 : (env (idx + 1)).arun = .error e2) :
    execute_scrape env cfg dt false idx
      = (generic_scrape_failure,
         [ScrapeEvent.attempt idx cfg,
          ScrapeEvent.attempt (idx + 1) (build_retry_config dt)]) := by
  rw [execute_scrape_first_ok_empty cfg dt h hs he,
      execute_scrape_retry_raise (build_retry_config dt) dt h2]

/-- Witness for the amended C3 at a concrete environment: empty first
extraction, browser-fatal failure on the empty-result retry. -/
theorem empty_retry_browser_fatal_not_recovered_witness :
    execute_scrape env_empty_then_browser_fatal (build_crawler_config "table")
        "table" false 0
      = (generic_scrape_failure,
         [ScrapeEvent.attempt 0 (build_crawler_config "table"),
          ScrapeEvent.attempt 1 (build_retry_config "table")]) :=
  empty_retry_browser_fatal_not_recovered env_empty_then_browser_fatal
    (build_crawler_config "table") "table" 0 fr_empty_first
    "browser has been closed" rfl rfl rfl rfl

/-- C3 counterexample: with an empty first extraction and a browser-fatal
error ("browser has been closed", which `is_browser_error` matches) on the
empty-result retry, the run performs no reset and no browser-fatal retry —
the event trace is exactly the two attempts — and returns the generic
failure record, contradicting the claim that the reset-with-forceWait
path is still triggered once for that attempt. -/
theorem empty_retry_browser_fatal_counterexample :
    is_browser_error "browser has been closed" = true ∧
    execute_scrape env_empty_then_browser_fatal (build_crawler_config "news")
        "news" false 0
      = (generic_scrape_failure,
         [ScrapeEvent.attempt 0 (build_crawler_config "news"),
          ScrapeEvent.attempt 1 (build_retry_config "news")]) := by
  refine ⟨by decide, ?_⟩
  rw [execute_scrape_first_ok_empty (build_crawler_config "news") "news"
        (rfl : (env_empty_then_browser_fatal 0).arun = .ok fr_empty_first) rfl rfl,
      execute_scrape_retry_raise (build_retry_config "news") "news"
        (rfl : (env_empty_then_browser_fatal 1).arun
            = .error "browser has been closed")]

/-- C4: when the first attempt raises a browser-fatal error (matched
case-insensitively against the fixed pattern list), the orchestrator
issues exactly one reset with forceWait true and exactly one retry of the
whole operation with the same config: if the retry succeeds its success
record is returned, and if the retry raises again the generic user-facing
failure record is returned — in both cases the trace is exactly
[attempt, reset true, attempt], so there is never a second reset or a
third attempt. -/
theorem browser_fatal_reset_retry_policy
    (env : Nat → AttemptSpec) (cfg : CrawlerRunConfig) (dt : String) (idx : Nat)
    (e : String) (h : (env idx).arun = .error e) (hb : is_browser_error e = true) :
    (∀ fr : FetchResult, (env (idx + 1)).arun = .ok fr → fr.success = true →
        execute_scrape env cfg dt false idx
          = (⟨true, attempt_data env (idx + 1) fr, fr.tokens, none⟩,
             [ScrapeEvent.attempt idx cfg, ScrapeEvent.reset true,
              ScrapeEvent.attempt (idx + 1) cfg])) ∧
    (∀ e2 : String, (env (idx + 1)).arun = .error e2 →
        execute_scrape env cfg dt false idx
          = (generic_scrape_failure,
             [ScrapeEvent.attempt idx cfg, ScrapeEvent.reset true,
              ScrapeEvent.attempt (idx + 1) cfg])) := by
  constructor
  · intro fr h2 hs
    rw [execute_scrape_first_raise_browser cfg dt h hb,
        execute_scrape_retry_ok cfg dt h2]
    simp [hs]
  · intro e2 h2
    rw [execute_scrape_first_raise_browser cfg dt h hb,
        execute_scrape_retry_raise cfg dt h2]

/-- Witness for C4 at a concrete environment: "Target closed" on the first
attempt (a browser-fatal signature) and a successful retry. -/
theorem browser_fatal_reset_retry_policy_witness :
    execute_scrape env_browser_then_ok (build_crawler_config "table") "table" false 0
      = (⟨true, .int 3, some 9, none⟩,
         [ScrapeEvent.attempt 0 (build_crawler_config "table"),
          ScrapeEvent.reset true,
          ScrapeEvent.attempt 1 (build_crawler_config "table")]) :=
  (browser_fatal_reset_retry_policy env_browser_then_ok
      (build_crawler_config "table") "table" 0 "Target closed"
      rfl (by decide)).1 fr_ok_second rfl rfl

/-- C5: a structurally successful first attempt whose processed record is
judged empty triggers exactly one retry, run with the retry configuration
whose delay is the base profile delay multiplied by 1.5 while the wait
condition, page timeout and pre-capture script are unchanged; the retry's
result is returned as the result of the whole call, and the trace is
exactly the two attempts whatever the second attempt does — no third
attempt and no reset can follow it. -/
theorem empty_result_retry_policy
    (env : Nat → AttemptSpec) (cfg : CrawlerRunConfig) (dt : String) (idx : Nat)
    (fr : FetchResult)
    (h : (env idx).arun = .ok fr) (hs : fr.success = true)
    (he : is_empty_result (attempt_data env idx fr) = true) :
    execute_scrape env cfg dt false idx
      = ((execute_scrape env (build_retry_config dt) dt true (idx + 1)).1,
         [ScrapeEvent.attempt idx cfg,
          ScrapeEvent.attempt (idx + 1) (build_retry_config dt)]) ∧
    (build_retry_config dt).delay_before_return_html = (get_config dt).delay * (3 / 2) ∧
    (build_retry_config dt).wait_for = (get_config dt).wait_for ∧
    (build_retry_config dt).page_timeout = (get_config dt).timeout ∧
    (build_retry_config dt).js_code = (get_config dt).js_code := by
  refine ⟨?_, rfl, rfl, rfl, rfl⟩
  rw [execute_scrape_first_ok_empty cfg dt h hs he, execute_scrape_retry_trace]

/-- Witness for C5 at a concrete environment: empty first extraction, data
on the retry. -/
theorem empty_result_retry_policy_witness :
    execute_scrape env_empty_then_ok (build_crawler_config "news") "news" false 0
      = ((execute_scrape env_empty_then_ok (build_retry_config "news") "news" true 1).1,
         [ScrapeEvent.attempt 0 (build_crawler_config "news"),
          ScrapeEvent.attempt 1 (build_retry_config "news")]) :=
  (empty_result_retry_policy env_empty_then_ok (build_crawler_config "news")
      "news" 0 fr_empty_first rfl rfl rfl).1

/-- C6: reset with forceWait false returns without touching the handle
whenever the instantaneous active-operation count is positive; reset with
forceWait true polls — every tick strictly before the exit tick saw a
positive count — until the count reads zero or the 30-second timeout
elapses (exit tick 301 in 0.1-second ticks), and then clears the handle in
either case; and the whole reset is insensitive to a failing close call
(close failures are swallowed), which together with the totality of
`reset_crawler` renders "reset never raises". -/
theorem reset_crawler_policy :
    (∀ (counts : Nat → Nat) (crawler : Option Unit) (oc : Except String Unit),
        0 < counts 0 → reset_crawler false counts crawler oc = (crawler, 0)) ∧
    (∀ (counts : Nat → Nat) (crawler : Option Unit) (oc : Except String Unit),
        (reset_crawler true counts crawler oc).1 = none ∧
        (counts (reset_crawler true counts crawler oc).2 = 0 ∨
          (reset_crawler true counts crawler oc).2 = 301) ∧
        (∀ j, j < (reset_crawler true counts crawler oc).2 → counts j ≠ 0)) ∧
    (∀ (fw : Bool) (counts : Nat → Nat) (crawler : Option Unit) (msg : String),
        reset_crawler fw counts crawler (.error msg)
          = reset_crawler fw counts crawler (.ok ())) := by
  refine ⟨?_, ?_, ?_⟩
  · intro counts crawler oc h
    simp [reset_crawler, h]
  · intro counts crawler oc
    obtain ⟨ha, _, hc⟩ := wait_loop_exit counts 301 0 (by omega) (by omega)
    refine ⟨?_, ?_, ?_⟩
    · simp [reset_crawler, close_crawler_eq_none]
    · simpa [reset_crawler] using ha
    · intro j hj
      simp only [reset_crawler, if_pos rfl] at hj
      exact hc j (Nat.zero_le j) hj
  · intro fw counts crawler msg
    cases fw with
    | true => simp [reset_crawler, close_crawler_eq_none]
    | false =>
      by_cases h : 0 < counts 0
      · simp [reset_crawler, h]
      · simp [reset_crawler, h, close_crawler_eq_none]

/-- C7: every acquisition increments the active-operation counter before
yielding (whenever the handle materialized, the body observed the counter
at one more than its entry value) and decrements it on every exit path —
construction failure, body failure or success all restore the entry value —
and consequently along any event sequence the reference-counting discipline
can produce from zero the counter equals the number of in-flight
acquisitions and is never negative. -/
theorem active_scrapes_reference_counting :
    (∀ (α : Type) (count : Int) (g : Except String Unit) (body : Except String α),
        (acquire_crawler count g body).final_count = count ∧
        ((acquire_crawler count g body).count_at_yield = none ∨
          (acquire_crawler count g body).count_at_yield = some (count + 1)) ∧
        (g = .ok () → (acquire_crawler count g body).count_at_yield
            = some (count + 1))) ∧
    (∀ (k : Nat) (es : List OpEvent), AcquireGen k es →
        count_after 0 es = (k : Int) ∧ 0 ≤ count_after 0 es) := by
  constructor
  · intro α count g body
    cases g with
    | error e =>
      refine ⟨by simp [acquire_crawler], Or.inl (by simp [acquire_crawler]), ?_⟩
      intro hg
      simp at hg
    | ok u =>
      cases body with
      | ok a =>
        exact ⟨by simp [acquire_crawler], Or.inr (by simp [acquire_crawler]),
          fun _ => by simp [acquire_crawler]⟩
      | error e =>
        exact ⟨by simp [acquire_crawler], Or.inr (by simp [acquire_crawler]),
          fun _ => by simp [acquire_crawler]⟩
  · intro k es hgen
    induction hgen with
    | nil => simp [count_after]
    | enter hg ih =>
      rw [count_after_append]
      simp only [count_after]
      refine ⟨?_, ?_⟩ <;> omega
    | exit hg ih =>
      rw [count_after_append]
      simp only [count_after]
      refine ⟨?_, ?_⟩ <;> omega

/-- C8: the emptiness test returns true exactly on the values described by
the specification — null, the empty list, a single-element list with an
empty sole element, or a mapping whose leaves are all null with every
nested list empty and every nested mapping recursively so — and a list of
two or more elements is never judged empty, whatever its elements are. -/
theorem is_empty_result_characterization :
    (∀ x : PyVal, is_empty_result x = true ↔ SpecEmpty x) ∧
    (∀ (a b : PyVal) (tl : PyList),
        is_empty_result (PyVal.list (.cons a (.cons b tl))) = false) := by
  exact ⟨is_empty_result_iff, fun a b tl => rfl⟩

/-- C9: a batch item whose url or data_type is missing or empty is filled
with the dedicated failure record, and `_scrape_by_type` is never invoked
for it (the `false` flag), so the item causes no crawler acquisition, no
navigation and no extraction; its slot in the full batch output is that
same failure record. -/
theorem missing_field_short_circuit
    (oracle : Nat → Except String ScrapeResult) (requests : List BatchRequest)
    (mc i : Nat) (hi : i < requests.length)
    (hreq : (requests.get ⟨i, hi⟩).url = "" ∨ (requests.get ⟨i, hi⟩).data_type = "")
    (hi2 : i < (scrape_batch oracle (.ok ()) requests mc).length) :
    scrape_single oracle i (requests.get ⟨i, hi⟩)
      = (missing_field_failure (requests.get ⟨i, hi⟩), false) ∧
    (scrape_batch oracle (.ok ()) requests mc).get ⟨i, hi2⟩
      = missing_field_failure (requests.get ⟨i, hi⟩) := by
  simp only [List.get_eq_getElem] at hreq ⊢
  have hcond : (decide (requests[i].url = "")
      || decide (requests[i].data_type = "")) = true := by
    rcases hreq with h | h <;> simp [h]
  have hsingle : scrape_single oracle i requests[i]
      = (missing_field_failure requests[i], false) := by
    simp [scrape_single, hcond]
  refine ⟨hsingle, ?_⟩
  rw [List.getElem_of_eq (scrape_batch_warmup_ok oracle requests mc ()) hi2]
  simp only [List.getElem_map, List.getElem_enum]
  exact congrArg Prod.fst hsingle

/-- Witness for C9 at a concrete batch whose second item has an empty
url. -/
theorem missing_field_short_circuit_witness :
    scrape_single oracle_fail 1 (reqs_pair.get ⟨1, by decide⟩)
      = (missing_field_failure (reqs_pair.get ⟨1, by decide⟩), false) ∧
    (scrape_batch oracle_fail (.ok ()) reqs_pair 3).get ⟨1, by decide⟩
      = missing_field_failure (reqs_pair.get ⟨1, by decide⟩) :=
  missing_field_short_circuit oracle_fail reqs_pair 3 1 (by decide)
    (Or.inl rfl) (by decide)

/-- C10: successful extractions are normalized — a single-element list is
replaced by its sole element, a longer list is wrapped as the dict
{"results": list}, anything that is not a list passes through — and it is
this normalized value `attempt_data` that both feeds the emptiness test
deciding the retry and is returned in the data field of the success
record. -/
theorem extracted_content_normalization :
    (∀ x : PyVal, final_data_of (.list (.cons x .nil)) = x) ∧
    (∀ (a b : PyVal) (tl : PyList),
        final_data_of (.list (.cons a (.cons b tl)))
          = PyVal.dict (.cons "results" (.list (.cons a (.cons b tl))) .nil)) ∧
    (∀ x : PyVal, (∀ xs : PyList, x ≠ .list xs) → final_data_of x = x) ∧
    (∀ (env : Nat → AttemptSpec) (cfg : CrawlerRunConfig) (dt : String)
       (idx : Nat) (fr : FetchResult),
        (env idx).arun = .ok fr → fr.success = true →
        (is_empty_result (attempt_data env idx fr) = false →
          (execute_scrape env cfg dt false idx).1
            = ⟨true, attempt_data env idx fr, fr.tokens, none⟩) ∧
        (is_empty_result (attempt_data env idx fr) = true →
          execute_scrape env cfg dt false idx
            = ((execute_scrape env (build_retry_config dt) dt true (idx + 1)).1,
               ScrapeEvent.attempt idx cfg ::
                 (execute_scrape env (build_retry_config dt) dt true (idx + 1)).2))) := by
  refine ⟨fun x => rfl, fun a b tl => rfl, ?_, ?_⟩
  · intro x hx
    cases x with
    | list xs => exact absurd rfl (hx xs)
    | null => rfl
    | bool b => rfl
    | int n => rfl
    | str s => rfl
    | dict fs => rfl
  · intro env cfg dt idx fr h hs
    constructor
    · intro hne
      rw [execute_scrape_first_ok_nonempty cfg dt h hne]
      simp [hs]
    · intro he
      exact execute_scrape_first_ok_empty cfg dt h hs he
